import Mathlib

/-!
Verification of the CloudFlow distributed-transaction core against its
natural-language specification.  The definitions below are a shallow
embedding of the Python sources under src/: the idempotency wrapper
(services/shared/idempotency.py), the DynamoDB-backed circuit breaker
(services/shared/circuit_breaker.py), the inventory service handler
(services/inventory_service/handler.py), the order repository
(services/order_service/repository.py together with
services/shared/dynamodb.py), and the Step Functions saga definition
(infrastructure/cloudflow/saga_stack.py).

Store state is modelled per key: each wrapper touches a single DynamoDB
item, so the relevant store slice is an `Option` of the item.  DynamoDB
UpdateItem upserts: updating an absent item creates one holding only the
SET attributes, which is why breaker items below have per-attribute
`Option` fields.  Machine integers do not overflow in these code paths
(counters and epoch seconds), so counts and times are `Nat` and
quantities are `Int`.
-/

namespace CloudFlow

/-! ## Idempotency wrapper (src/services/shared/idempotency.py) -/

/-- Default TTL for idempotency records, from IDEMPOTENCY_TTL_SECONDS (24h). -/
def IDEMPOTENCY_TTL_SECONDS : Nat := 86400

/-- A record of the idempotency table, keyed by idempotency_key.  `result`
holds the cached result of a completed execution.  The Python code stores
`json.dumps result` and returns `json.loads` of it on a cache hit; for the
JSON-representable values the services cache (string-keyed objects of
strings, booleans and integers) that round trip is the identity, so the
serialised payload is modelled by the value itself. -/
structure IdemRecord (α : Type) where
  status : String
  result : Option α
  created_at : Nat
  ttl : Nat
deriving Repr, DecidableEq

/-- Outcome of running the wrapped function once: it returns a value or raises. -/
inductive FnOutcome (α : Type) where
  | ok (v : α)
  | exn
deriving Repr, DecidableEq

/-- What the wrapper hands back to its caller. -/
inductive WrapResult (α : Type) where
  | value (v : α)
  | inProgress
  | invalidState
  | fnError
  | pyKeyError
deriving Repr, DecidableEq

/-- Result of one pass through the wrapper: caller-visible result, the
record left in the table for this key, and whether the wrapped function ran. -/
structure WrapStep (α : Type) where
  res : WrapResult α
  store : Option (IdemRecord α)
  fnRan : Bool
deriving Repr, DecidableEq

/-- One call through the `idempotent` decorator for a fixed key, embedded
from the `wrapper` body in src/services/shared/idempotency.py lines 72-126.
`store` is the table slice at the key before the call and `f` is the
behaviour the wrapped function would have if invoked.
The conditional put (ConditionExpression attribute_not_exists) succeeds
exactly when the record is absent; on success the function runs, and its
successful result is cached by updating the claimed record to COMPLETE,
while an exception deletes the record and is rethrown.  When the claim
fails the existing record is read back: COMPLETE returns the cached
result (a KeyError would escape if the result attribute were missing),
IN_FLIGHT raises IdempotencyAlreadyInProgressError, and any other status
deletes the record and raises IdempotencyError. -/
def idempotentCall {α : Type} (store : Option (IdemRecord α)) (now : Nat)
    (f : FnOutcome α) : WrapStep α :=
  match store with
  | none =>
    match f with
    | .ok v =>
      ⟨.value v, some ⟨"COMPLETE", some v, now, now + IDEMPOTENCY_TTL_SECONDS⟩, true⟩
    | .exn => ⟨.fnError, none, true⟩
  | some r =>
    if r.status = "COMPLETE" then
      match r.result with
      | some v => ⟨.value v, some r, false⟩
      | none => ⟨.pyKeyError, some r, false⟩
    else if r.status = "IN_FLIGHT" then
      ⟨.inProgress, some r, false⟩
    else
      ⟨.invalidState, none, false⟩

/-! ## Circuit breaker (src/services/shared/circuit_breaker.py) -/

/-- The three circuit states of the CircuitState enum. -/
inductive CircuitState where
  | CLOSED
  | OPEN
  | HALF_OPEN
deriving Repr, DecidableEq

/-- A persisted breaker item.  DynamoDB items are attribute maps and
UpdateItem creates a missing item holding only the attributes its
UpdateExpression sets, so every attribute is individually optional. -/
structure BreakerItem where
  circuit_state : Option CircuitState
  failure_count : Option Nat
  success_count : Option Nat
  resets_at : Option Nat
deriving Repr, DecidableEq

/-- Constructor parameters of the CircuitBreaker class. -/
structure BreakerConfig where
  failure_threshold : Nat
  success_threshold : Nat
  timeout_seconds : Nat
deriving Repr, DecidableEq

/-- An item with no attributes beside the key, the base a DynamoDB
UpdateItem upsert starts from when the item is absent. -/
def emptyItem : BreakerItem := ⟨none, none, none, none⟩

/-- CircuitBreaker._get_state: the stored item, or the in-memory default
dict (CLOSED, zero counters, no resets_at attribute) when absent. -/
def getState (store : Option BreakerItem) : BreakerItem :=
  match store with
  | some it => it
  | none => ⟨some .CLOSED, some 0, some 0, none⟩

/-- The item an UpdateItem upsert modifies: the stored one, or a fresh
attribute-less item when the key is absent. -/
def baseOf (store : Option BreakerItem) : BreakerItem :=
  match store with
  | some it => it
  | none => emptyItem

/-- CircuitBreaker._transition_to_half_open: SET circuit_state HALF_OPEN
and success_count 0. -/
def transitionToHalfOpen (store : Option BreakerItem) : Option BreakerItem :=
  some { baseOf store with circuit_state := some .HALF_OPEN, success_count := some 0 }

/-- CircuitBreaker._record_success, lines 131-159: acting on the
previously read state `prev`, a HALF_OPEN success either closes the
breaker (SET circuit_state CLOSED, failure_count 0, success_count 0) when
the incremented success count reaches success_threshold, or just writes
the incremented success count; a CLOSED success resets failure_count to
0; in OPEN state nothing is written. -/
def recordSuccess (cfg : BreakerConfig) (prev : BreakerItem)
    (store : Option BreakerItem) : Option BreakerItem :=
  match prev.circuit_state.getD .CLOSED with
  | .HALF_OPEN =>
    let newSuccesses := prev.success_count.getD 0 + 1
    if cfg.success_threshold ≤ newSuccesses then
      some { baseOf store with
             circuit_state := some .CLOSED
             failure_count := some 0
             success_count := some 0 }
    else
      some { baseOf store with success_count := some newSuccesses }
  | .CLOSED =>
    some { baseOf store with failure_count := some 0 }
  | .OPEN => store

/-- CircuitBreaker._record_failure, lines 161-189: when the incremented
failure count reaches failure_threshold and the previously read state is
not already OPEN, SET circuit_state OPEN, failure_count to the new count,
resets_at to now plus timeout_seconds, success_count 0; otherwise only
the incremented failure count is written. -/
def recordFailure (cfg : BreakerConfig) (prev : BreakerItem)
    (store : Option BreakerItem) (now : Nat) : Option BreakerItem :=
  let newFailures := prev.failure_count.getD 0 + 1
  if cfg.failure_threshold ≤ newFailures ∧ prev.circuit_state.getD .CLOSED ≠ .OPEN then
    some { baseOf store with
           circuit_state := some .OPEN
           failure_count := some newFailures
           resets_at := some (now + cfg.timeout_seconds)
           success_count := some 0 }
  else
    some { baseOf store with failure_count := some newFailures }

/-- Outcome of one call through the breaker. -/
inductive CallOutcome where
  | returned
  | raised
  | openRejected (resets_at : Nat)
  | keyError
deriving Repr, DecidableEq

/-- Result of CircuitBreaker.call: what the caller sees, whether the
protected callable was invoked, and the breaker item left in the table. -/
structure CallStep where
  outcome : CallOutcome
  fnInvoked : Bool
  store : Option BreakerItem
deriving Repr, DecidableEq

/-- Behaviour of the protected callable if it were invoked. -/
inductive FnRes where
  | ok
  | fail
deriving Repr, DecidableEq

/-- CircuitBreaker.call, lines 85-107.  The state is read once; the
subscript state of circuit_state raises a Python KeyError when the stored
item lacks that attribute.  An OPEN state before resets_at (read with a
0 default) rejects with CircuitBreakerOpenError; at or after resets_at
the breaker writes the HALF_OPEN transition, re-reads the state, and
invokes the callable as a probe; otherwise the callable is invoked
directly, with success or failure recorded against the state read before
the invocation. -/
def CircuitBreaker.call (cfg : BreakerConfig) (store : Option BreakerItem)
    (now : Nat) (f : FnRes) : CallStep :=
  let state := getState store
  match state.circuit_state with
  | none => ⟨.keyError, false, store⟩
  | some cs =>
    if cs = .OPEN then
      let r := state.resets_at.getD 0
      if now < r then
        ⟨.openRejected r, false, store⟩
      else
        let store1 := transitionToHalfOpen store
        let state1 := getState store1
        match f with
        | .ok => ⟨.returned, true, recordSuccess cfg state1 store1⟩
        | .fail => ⟨.raised, true, recordFailure cfg state1 store1 now⟩
    else
      match f with
      | .ok => ⟨.returned, true, recordSuccess cfg state store⟩
      | .fail => ⟨.raised, true, recordFailure cfg state store now⟩

/-- CircuitBreaker.reset: put_item replaces the whole item with a CLOSED
record with zeroed counters and no resets_at attribute. -/
def CircuitBreaker.reset : Option BreakerItem :=
  some ⟨some .CLOSED, some 0, some 0, none⟩

/-! ## Inventory service (src/services/inventory_service/handler.py) -/

/-- An order line item (shared.events.OrderItem); pydantic validates
quantity strictly positive and unit_price_cents nonnegative. -/
structure OrderItem where
  product_id : String
  quantity : Int
  unit_price_cents : Int
deriving Repr, DecidableEq

/-- The inventory table: stored quantity per product_id. -/
abbrev Inventory := String → Int

/-- Pointwise update of one product's quantity. -/
def setQty (inv : Inventory) (p : String) (v : Int) : Inventory :=
  fun q => if q = p then v else inv q

/-- Result of the guarded decrement: whether the condition held, and the
inventory afterwards (unchanged when the condition failed). -/
structure DecrementResult where
  success : Bool
  inv : Inventory

/-- _decrement_stock, handler lines 161-183: one atomic UpdateItem that
subtracts n from the product's quantity under ConditionExpression
quantity >= n; a failed condition changes nothing and surfaces as
InsufficientStockError. -/
def decrement_stock (inv : Inventory) (p : String) (n : Int) : DecrementResult :=
  if n ≤ inv p then ⟨true, setQty inv p (inv p - n)⟩ else ⟨false, inv⟩

/-- The unconditional ADD quantity n the release path performs per item. -/
def addQty (inv : Inventory) (p : String) (n : Int) : Inventory :=
  setQty inv p (inv p + n)

/-- The per-item decrement loop of _reserve, handler lines 92-94: items
are decremented in order and the first insufficient item aborts the loop
with InsufficientStockError, leaving the earlier decrements in place. -/
def reserveLoop (inv : Inventory) : List OrderItem → DecrementResult
  | [] => ⟨true, inv⟩
  | i :: rest =>
    let d := decrement_stock inv i.product_id i.quantity
    if d.success then reserveLoop d.inv rest else ⟨false, d.inv⟩

/-- Concrete two-product inventory for the failed-reserve scenario: one
unit of product A, no stock of anything else. -/
def invAB : Inventory := fun p => if p = "A" then 1 else 0

/-- Concrete single-product inventory with five units of product A. -/
def invStock : Inventory := fun p => if p = "A" then 5 else 0

/-- A reservation record of the reservations table. -/
structure Reservation where
  items : List OrderItem
  status : String
deriving Repr, DecidableEq

/-- Caller-visible response of the release operation. -/
structure ReleaseResponse where
  success : Bool
  message : Option String
deriving Repr, DecidableEq

/-- The state a release touches: the inventory table, the reservation
record under the given reservation_id, and the idempotency record under
the key release-<reservation_id>. -/
structure ReleaseState where
  inv : Inventory
  reservation : Option Reservation
  idem : Option (IdemRecord ReleaseResponse)

/-- ADD quantity back for every item of the reservation, handler lines
132-139. -/
def addItemsBack (inv : Inventory) : List OrderItem → Inventory
  | [] => inv
  | i :: rest => addItemsBack (addQty inv i.product_id i.quantity) rest

/-- Body of _do_release, handler lines 123-152: an absent reservation
returns success and changes nothing; otherwise every item quantity is
added back unconditionally and the reservation status is set to RELEASED.
The stored reservation status is never consulted. -/
def do_release (st : ReleaseState) : ReleaseResponse × ReleaseState :=
  match st.reservation with
  | none => (⟨true, some "Nothing to release"⟩, st)
  | some r =>
    (⟨true, none⟩,
     { st with
       inv := addItemsBack st.inv r.items
       reservation := some { r with status := "RELEASED" } })

/-- Outcome of a wrapped release call. -/
inductive ReleaseOutcome where
  | value (v : ReleaseResponse)
  | inProgress
  | invalidState
  | pyKeyError
deriving Repr, DecidableEq

/-- _release, handler lines 118-154: _do_release wrapped by the
idempotent decorator keyed release-<reservation_id>, following the same
wrapper protocol as idempotentCall, specialised to the release state. -/
def release (st : ReleaseState) (now : Nat) : ReleaseOutcome × ReleaseState :=
  match st.idem with
  | none =>
    let r := do_release st
    (.value r.1,
     { r.2 with idem := some ⟨"COMPLETE", some r.1, now, now + IDEMPOTENCY_TTL_SECONDS⟩ })
  | some r0 =>
    if r0.status = "COMPLETE" then
      match r0.result with
      | some v => (.value v, st)
      | none => (.pyKeyError, st)
    else if r0.status = "IN_FLIGHT" then
      (.inProgress, st)
    else
      (.invalidState, { st with idem := none })

/-- Concrete release scenario: five units of product A in stock, a
reservation of two units already in status RELEASED, and no idempotency
record under the key (as after TTL eviction of the record the earlier
release wrote). -/
def releasedState : ReleaseState :=
  ⟨invStock, some ⟨[⟨"A", 2, 100⟩], "RELEASED"⟩, none⟩

/-! ## Order repository (src/services/order_service/repository.py and
src/services/shared/dynamodb.py) -/

/-- Order status enum (shared.events.OrderStatus). -/
inductive OrderStatus where
  | PENDING
  | INVENTORY_RESERVED
  | PAYMENT_CHARGED
  | CONFIRMED
  | INVENTORY_FAILED
  | PAYMENT_FAILED
  | FAILED
  | COMPENSATING
deriving Repr, DecidableEq

/-- The META item of an order, restricted to the fields the status write
touches. -/
structure OrderRec where
  status : OrderStatus
  version : Nat
deriving Repr, DecidableEq

/-- OrderRepository.update_status, repository lines 59-67: an UpdateItem
that sets the status and increments version with no ConditionExpression;
it takes no observed version and has no failure path for a concurrent
change (ADD on an absent item starts the counter from 0). -/
def update_status (stored : Option OrderRec) (s : OrderStatus) : Option OrderRec :=
  match stored with
  | some o => some ⟨s, o.version + 1⟩
  | none => some ⟨s, 1⟩

/-- Result of the optimistic-lock put helper. -/
inductive PutResult where
  | okPut (o : OrderRec)
  | optimisticLockError
deriving Repr, DecidableEq

/-- put_item_with_optimistic_lock, shared/dynamodb.py lines 29-65: a
version-0 item is written only if nothing exists at the key, any other
item only if the stored version equals the version carried by the item
the writer read; otherwise OptimisticLockError.  OrderRepository.create
uses this helper; update_status does not. -/
def put_item_with_optimistic_lock (stored : Option OrderRec) (item : OrderRec) :
    PutResult :=
  if item.version = 0 then
    match stored with
    | none => .okPut ⟨item.status, item.version + 1⟩
    | some _ => .optimisticLockError
  else
    match stored with
    | some s =>
      if s.version = item.version then .okPut ⟨item.status, item.version + 1⟩
      else .optimisticLockError
    | none => .optimisticLockError

/-! ## Saga state machine (src/infrastructure/cloudflow/saga_stack.py) -/

/-- The states of the cloudflow-order-saga Step Functions machine. -/
inductive SagaState where
  | ReserveInventory
  | InventoryReservedChoice
  | SetInventoryFailedError
  | NoInventoryToRelease
  | ChargePayment
  | PaymentSucceededChoice
  | SetPaymentFailedError
  | ReleaseInventory
  | NotifyOrderConfirmed
  | NotifyOrderFailed
  | OrderConfirmed
  | OrderFailed
deriving Repr, DecidableEq

/-- The DynamoDB tables of the deployment. -/
inductive TableId where
  | orders
  | inventory
  | reservations
  | payments
  | idempotency
  | circuit_breakers
deriving Repr, DecidableEq

/-- Tables written by each saga state, read off the Lambda handler or
task each state runs: ReserveInventory and ReleaseInventory invoke the
inventory handler, which writes the inventory, reservations and
idempotency tables; ChargePayment invokes the payment handler, which
writes the payments, idempotency and circuit-breaker tables; the notify
states send an SQS message whose consumer, the notification handler,
writes only the idempotency table; the choice, pass and terminal states
touch no table. -/
def tablesWritten : SagaState → List TableId
  | .ReserveInventory => [.inventory, .reservations, .idempotency]
  | .ReleaseInventory => [.inventory, .reservations, .idempotency]
  | .ChargePayment => [.payments, .idempotency, .circuit_breakers]
  | .NotifyOrderConfirmed => [.idempotency]
  | .NotifyOrderFailed => [.idempotency]
  | _ => []

/-- The order status a saga state writes to the orders table.  No state
of the machine runs code that writes the orders table (the only status
write in the services is OrderRepository.update_status, which neither the
state machine nor any handler invokes), so no state writes a status. -/
def statusWrittenBy : SagaState → Option OrderStatus :=
  fun _ => none

/-- The sequence of states one completed execution visits, following the
chains of saga_stack.py lines 122-166: reserve then the inventory choice;
on success charge and the payment choice, ending at OrderConfirmed or
compensating through ReleaseInventory to OrderFailed; on failure the
no-release branch ends at OrderFailed. -/
def sagaPath (reserveOk paymentOk : Bool) : List SagaState :=
  [.ReserveInventory, .InventoryReservedChoice] ++
  (if reserveOk then
    [.ChargePayment, .PaymentSucceededChoice] ++
    (if paymentOk then
      [.NotifyOrderConfirmed, .OrderConfirmed]
     else
      [.SetPaymentFailedError, .ReleaseInventory, .NotifyOrderFailed, .OrderFailed])
  else
    [.SetInventoryFailedError, .NoInventoryToRelease, .NotifyOrderFailed, .OrderFailed])

/-- The order's persisted status after a path: each visited state applies
its status write, if any. -/
def finalOrderStatus (init : OrderStatus) (path : List SagaState) : OrderStatus :=
  path.foldl (fun st s => (statusWrittenBy s).getD st) init

end CloudFlow

namespace CloudFlow

/-! ### Theorems about the idempotency wrapper -/

/-- C1 counterexample: the claim says that for every pair of calls with the
same key within the record TTL the wrapped function is executed at most
once.  Concrete refutation: the first call claims the key and its
execution raises, so the wrapper deletes the record and rethrows; a second
call one second later (well inside the 24h TTL window) claims the key
again and executes the function a second time — both calls ran it. -/
theorem idempotent_retry_after_exception_runs_twice :
    (idempotentCall (none : Option (IdemRecord Nat)) 0 FnOutcome.exn).fnRan = true ∧
    (idempotentCall (idempotentCall (none : Option (IdemRecord Nat)) 0 FnOutcome.exn).store
      1 (FnOutcome.ok 42)).fnRan = true := by
  decide

/-- C1 amended: over any pair of sequential calls with the same key within
the record TTL, at most one execution of the wrapped function completes:
once a call runs the function to completion, a later call does not run it
and returns the cached result of that completed execution; any two calls
that return results return equal results; and a call whose execution
raises leaves no record, which is what permits a later call to execute the
function again. -/
theorem idempotent_at_most_one_completed_execution {α : Type}
    (s0 : Option (IdemRecord α)) (t1 t2 : Nat) (o1 o2 : FnOutcome α) :
    ((idempotentCall s0 t1 o1).fnRan = true →
      ∀ v, o1 = FnOutcome.ok v →
        (idempotentCall (idempotentCall s0 t1 o1).store t2 o2).fnRan = false ∧
        (idempotentCall (idempotentCall s0 t1 o1).store t2 o2).res = WrapResult.value v) ∧
    (∀ v1 v2, (idempotentCall s0 t1 o1).res = WrapResult.value v1 →
      (idempotentCall (idempotentCall s0 t1 o1).store t2 o2).res = WrapResult.value v2 →
      v1 = v2) ∧
    ((idempotentCall s0 t1 o1).fnRan = true → o1 = FnOutcome.exn →
      (idempotentCall s0 t1 o1).store = none) := by
  match s0 with
  | none =>
    match o1 with
    | .ok v0 =>
      refine ⟨?_, ?_, ?_⟩
      · intro _ v hv
        cases hv
        simp [idempotentCall]
      · intro v1 v2 h1 h2
        simp only [idempotentCall] at h1 h2
        cases h1
        cases h2
        rfl
      · intro _ h
        cases h
    | .exn =>
      refine ⟨?_, ?_, ?_⟩
      · intro _ v hv
        cases hv
      · intro v1 v2 h1 h2
        simp only [idempotentCall] at h1
        cases h1
      · intro _ _
        simp [idempotentCall]
  | some r =>
    have hran : (idempotentCall (some r) t1 o1).fnRan = false := by
      simp only [idempotentCall]
      split
      · split <;> rfl
      · split <;> rfl
    refine ⟨?_, ?_, ?_⟩
    · intro h
      rw [hran] at h
      cases h
    · intro v1 v2 h1 h2
      by_cases hc : r.status = "COMPLETE"
      · match hres : r.result with
        | some v =>
          have e1 : idempotentCall (some r) t1 o1 = ⟨.value v, some r, false⟩ := by
            simp [idempotentCall, hc, hres]
          rw [e1] at h1 h2
          simp only at h1 h2
          have e2 : idempotentCall (some r) t2 o2 = ⟨.value v, some r, false⟩ := by
            simp [idempotentCall, hc, hres]
          rw [e2] at h2
          cases h1
          cases h2
          rfl
        | none =>
          have e1 : idempotentCall (some r) t1 o1 = ⟨.pyKeyError, some r, false⟩ := by
            simp [idempotentCall, hc, hres]
          rw [e1] at h1
          cases h1
      · by_cases hi : r.status = "IN_FLIGHT"
        · have e1 : idempotentCall (some r) t1 o1 = ⟨.inProgress, some r, false⟩ := by
            simp [idempotentCall, hc, hi]
          rw [e1] at h1
          cases h1
        · have e1 : idempotentCall (some r) t1 o1 = ⟨.invalidState, none, false⟩ := by
            simp [idempotentCall, hc, hi]
          rw [e1] at h1
          cases h1
    · intro h
      rw [hran] at h
      cases h

/-- C1 amended, witnessed at a concrete input: the first call completes
with result 7, so the second call does not run the function and returns
the cached 7. -/
theorem idempotent_at_most_one_completed_execution_witness :
    (idempotentCall (idempotentCall (none : Option (IdemRecord Nat)) 0 (FnOutcome.ok 7)).store
      1 (FnOutcome.ok 9)).fnRan = false ∧
    (idempotentCall (idempotentCall (none : Option (IdemRecord Nat)) 0 (FnOutcome.ok 7)).store
      1 (FnOutcome.ok 9)).res = WrapResult.value 7 :=
  (idempotent_at_most_one_completed_execution
    (none : Option (IdemRecord Nat)) 0 1 (FnOutcome.ok 7) (FnOutcome.ok 9)).1
    (by decide) 7 rfl

/-- C8: when the claim fails because a record exists, a COMPLETE record
returns the cached result, an IN_FLIGHT record fails with the in-progress
error, and any other status deletes the record and raises the
invalid-state error, all without running the function; when the claim
succeeds and the function raises, the wrapper deletes the record and
rethrows, leaving no record for the key. -/
theorem idempotent_claim_branches {α : Type} (r : IdemRecord α) (now : Nat)
    (f : FnOutcome α) :
    (∀ v, r.status = "COMPLETE" → r.result = some v →
      idempotentCall (some r) now f = ⟨WrapResult.value v, some r, false⟩) ∧
    (r.status = "IN_FLIGHT" →
      idempotentCall (some r) now f = ⟨WrapResult.inProgress, some r, false⟩) ∧
    (r.status ≠ "COMPLETE" → r.status ≠ "IN_FLIGHT" →
      idempotentCall (some r) now f = ⟨WrapResult.invalidState, none, false⟩) ∧
    idempotentCall (none : Option (IdemRecord α)) now FnOutcome.exn =
      ⟨WrapResult.fnError, none, true⟩ := by
  refine ⟨?_, ?_, ?_, ?_⟩
  · intro v hc hres
    simp [idempotentCall, hc, hres]
  · intro hi
    have hc : r.status ≠ "COMPLETE" := by
      rw [hi]; decide
    simp [idempotentCall, hc, hi]
  · intro hc hi
    simp [idempotentCall, hc, hi]
  · simp [idempotentCall]

/-- C8 witnessed at concrete inputs: an IN_FLIGHT record yields the
in-progress error without running the function, and a raising execution
after a successful claim leaves no record. -/
theorem idempotent_claim_branches_witness :
    idempotentCall (some (⟨"IN_FLIGHT", none, 0, 86400⟩ : IdemRecord Nat)) 5 (FnOutcome.ok 3) =
      ⟨WrapResult.inProgress, some ⟨"IN_FLIGHT", none, 0, 86400⟩, false⟩ ∧
    idempotentCall (none : Option (IdemRecord Nat)) 5 FnOutcome.exn =
      ⟨WrapResult.fnError, none, true⟩ :=
  ⟨(idempotent_claim_branches (⟨"IN_FLIGHT", none, 0, 86400⟩ : IdemRecord Nat) 5
      (FnOutcome.ok 3)).2.1 rfl,
   (idempotent_claim_branches (⟨"IN_FLIGHT", none, 0, 86400⟩ : IdemRecord Nat) 5
      (FnOutcome.ok 3)).2.2.2⟩

/-! ### Theorems about the circuit breaker -/

/-- C2: a breaker whose persisted state is OPEN with resets_at strictly
in the future rejects the call with CircuitBreakerOpenError without
invoking the callable and without changing the stored item; a call at or
after resets_at invokes the callable as a probe, after writing the
HALF_OPEN transition. -/
theorem breaker_open_rejects_then_probes (cfg : BreakerConfig) (it : BreakerItem)
    (now r : Nat) (f : FnRes)
    (hs : it.circuit_state = some CircuitState.OPEN) (hr : it.resets_at = some r) :
    (now < r →
      CircuitBreaker.call cfg (some it) now f =
        ⟨CallOutcome.openRejected r, false, some it⟩) ∧
    (r ≤ now →
      (CircuitBreaker.call cfg (some it) now f).fnInvoked = true ∧
      (getState (transitionToHalfOpen (some it))).circuit_state =
        some CircuitState.HALF_OPEN) := by
  constructor
  · intro h
    simp [CircuitBreaker.call, getState, hs, hr, h]
  · intro h
    have hnl : ¬ now < r := not_lt.mpr h
    refine ⟨?_, ?_⟩
    · cases f <;> simp [CircuitBreaker.call, getState, hs, hr, hnl]
    · simp [transitionToHalfOpen, getState, baseOf]

/-- C2 witnessed at concrete inputs: at time 50 an OPEN breaker with
resets_at 100 fast-fails without invoking the callable; at time 150 the
callable is invoked as a probe against a HALF_OPEN state. -/
theorem breaker_open_rejects_then_probes_witness :
    CircuitBreaker.call ⟨5, 2, 30⟩
      (some ⟨some CircuitState.OPEN, some 5, some 0, some 100⟩) 50 FnRes.ok =
      ⟨CallOutcome.openRejected 100, false,
        some ⟨some CircuitState.OPEN, some 5, some 0, some 100⟩⟩ ∧
    ((CircuitBreaker.call ⟨5, 2, 30⟩
        (some ⟨some CircuitState.OPEN, some 5, some 0, some 100⟩) 150 FnRes.ok).fnInvoked =
          true ∧
      (getState (transitionToHalfOpen
        (some ⟨some CircuitState.OPEN, some 5, some 0, some 100⟩))).circuit_state =
          some CircuitState.HALF_OPEN) :=
  ⟨(breaker_open_rejects_then_probes ⟨5, 2, 30⟩
      ⟨some CircuitState.OPEN, some 5, some 0, some 100⟩ 50 100 FnRes.ok rfl rfl).1
      (by decide),
   (breaker_open_rejects_then_probes ⟨5, 2, 30⟩
      ⟨some CircuitState.OPEN, some 5, some 0, some 100⟩ 150 100 FnRes.ok rfl rfl).2
      (by decide)⟩

/-- C7: the breaker counter state machine, for states satisfying the
reachable-count invariants (a CLOSED failure count below threshold, a
HALF_OPEN success count below threshold).  A failure in CLOSED opens the
breaker with resets_at now plus timeout and zeroed success count exactly
when the incremented count reaches failure_threshold, and otherwise only
increments failure_count; a probe success in HALF_OPEN closes the breaker
with zeroed counters exactly when the incremented count reaches
success_threshold, and otherwise only increments success_count; a success
in CLOSED resets failure_count to 0; a probe failure in HALF_OPEN (whose
carried-over failure count is at threshold) reopens the breaker with a
fresh resets_at. -/
theorem breaker_counter_state_machine (cfg : BreakerConfig) (it : BreakerItem)
    (now : Nat) :
    (it.circuit_state.getD .CLOSED = .CLOSED →
      it.failure_count.getD 0 + 1 = cfg.failure_threshold →
      recordFailure cfg it (some it) now =
        some { it with
               circuit_state := some .OPEN
               failure_count := some cfg.failure_threshold
               resets_at := some (now + cfg.timeout_seconds)
               success_count := some 0 }) ∧
    (it.circuit_state.getD .CLOSED = .CLOSED →
      it.failure_count.getD 0 + 1 < cfg.failure_threshold →
      recordFailure cfg it (some it) now =
        some { it with failure_count := some (it.failure_count.getD 0 + 1) }) ∧
    (it.circuit_state.getD .CLOSED = .HALF_OPEN →
      it.success_count.getD 0 + 1 = cfg.success_threshold →
      recordSuccess cfg it (some it) =
        some { it with
               circuit_state := some .CLOSED
               failure_count := some 0
               success_count := some 0 }) ∧
    (it.circuit_state.getD .CLOSED = .HALF_OPEN →
      it.success_count.getD 0 + 1 < cfg.success_threshold →
      recordSuccess cfg it (some it) =
        some { it with success_count := some (it.success_count.getD 0 + 1) }) ∧
    (it.circuit_state.getD .CLOSED = .CLOSED →
      recordSuccess cfg it (some it) = some { it with failure_count := some 0 }) ∧
    (it.circuit_state.getD .CLOSED = .HALF_OPEN →
      cfg.failure_threshold ≤ it.failure_count.getD 0 + 1 →
      recordFailure cfg it (some it) now =
        some { it with
               circuit_state := some .OPEN
               failure_count := some (it.failure_count.getD 0 + 1)
               resets_at := some (now + cfg.timeout_seconds)
               success_count := some 0 }) := by
  refine ⟨?_, ?_, ?_, ?_, ?_, ?_⟩
  · intro h1 h2
    have hcne : it.circuit_state.getD .CLOSED ≠ .OPEN := by rw [h1]; decide
    simp only [recordFailure, baseOf, h2]
    rw [if_pos ⟨le_refl _, hcne⟩]
  · intro h1 h2
    have hcond : ¬ (cfg.failure_threshold ≤ it.failure_count.getD 0 + 1 ∧
        it.circuit_state.getD .CLOSED ≠ .OPEN) := by
      intro hc
      exact absurd hc.1 (not_le.mpr h2)
    simp only [recordFailure, if_neg hcond, baseOf]
  · intro h1 h2
    simp only [recordSuccess, h1, baseOf, if_pos (le_of_eq h2.symm)]
  · intro h1 h2
    simp only [recordSuccess, h1, baseOf, if_neg (not_le.mpr h2)]
  · intro h1
    simp only [recordSuccess, h1, baseOf]
  · intro h1 h2
    have hcond : cfg.failure_threshold ≤ it.failure_count.getD 0 + 1 ∧
        it.circuit_state.getD .CLOSED ≠ .OPEN := ⟨h2, by rw [h1]; decide⟩
    simp only [recordFailure, if_pos hcond, baseOf]

/-- C7 witnessed at concrete inputs: threshold 3, a CLOSED item with two
recorded failures, a third failure at time 1000 with a 60 second timeout
opens the breaker with resets_at 1060 and zeroed success count. -/
theorem breaker_counter_state_machine_witness :
    recordFailure ⟨3, 2, 60⟩ ⟨some CircuitState.CLOSED, some 2, some 0, none⟩
      (some ⟨some CircuitState.CLOSED, some 2, some 0, none⟩) 1000 =
      some ⟨some CircuitState.OPEN, some 3, some 0, some 1060⟩ := by
  simpa using (breaker_counter_state_machine ⟨3, 2, 60⟩
    ⟨some CircuitState.CLOSED, some 2, some 0, none⟩ 1000).1 rfl rfl

/-- C10: on a breaker with no persisted record the first call does invoke
the callable and _get_state defaults to CLOSED with zero counters, but a
recorded failure (threshold 2, so the breaker must not open yet) upserts
an item holding only failure_count; the next call reads that partial item
and raises a Python KeyError on the missing circuit_state attribute — it
neither invokes the callable nor opens the breaker, so the claimed run of
failure_threshold pass-through failures never happens. -/
theorem fresh_breaker_partial_record_keyerror :
    (CircuitBreaker.call ⟨2, 2, 30⟩ none 100 FnRes.fail).fnInvoked = true ∧
    (CircuitBreaker.call ⟨2, 2, 30⟩ none 100 FnRes.fail).store =
      some ⟨none, some 1, none, none⟩ ∧
    (CircuitBreaker.call ⟨2, 2, 30⟩ (some ⟨none, some 1, none, none⟩) 101
      FnRes.fail).outcome = CallOutcome.keyError ∧
    (CircuitBreaker.call ⟨2, 2, 30⟩ (some ⟨none, some 1, none, none⟩) 101
      FnRes.fail).fnInvoked = false ∧
    (getState none).circuit_state = some CircuitState.CLOSED := by
  decide

/-! ### Theorems about the inventory service -/

/-- The concrete inventory invStock holds no negative quantity. -/
theorem invStock_nonneg : ∀ q, 0 ≤ invStock q := by
  intro q
  by_cases h : q = "A" <;> simp [invStock, h]

/-- C3: starting from an all-nonnegative inventory, for a positive
requested quantity the guarded decrement succeeds exactly when the stock
condition holds, a failed guard leaves the inventory untouched, the
inventory after the decrement is still nonnegative everywhere, and the
release increment only adds stock, preserving nonnegativity. -/
theorem inventory_nonneg_preserved (inv : Inventory) (p : String) (n : Int)
    (hinv : ∀ q, 0 ≤ inv q) (hn : 0 < n) :
    ((decrement_stock inv p n).success = true ↔ n ≤ inv p) ∧
    ((decrement_stock inv p n).success = false → (decrement_stock inv p n).inv = inv) ∧
    (∀ q, 0 ≤ (decrement_stock inv p n).inv q) ∧
    (∀ q, inv q ≤ addQty inv p n q) ∧
    (∀ q, 0 ≤ addQty inv p n q) := by
  by_cases hle : n ≤ inv p
  · refine ⟨by simp [decrement_stock, hle], by simp [decrement_stock, hle], ?_, ?_, ?_⟩
    · intro q
      have h1 := hinv q
      simp only [decrement_stock, if_pos hle, setQty]
      split
      · omega
      · exact h1
    · intro q
      have h1 := hinv q
      simp only [addQty, setQty]
      split
      · next hq => subst hq; omega
      · omega
    · intro q
      have h1 := hinv q
      have h2 := hinv p
      simp only [addQty, setQty]
      split
      · omega
      · exact h1
  · refine ⟨by simp [decrement_stock, hle], by simp [decrement_stock, hle], ?_, ?_, ?_⟩
    · intro q
      simp only [decrement_stock, if_neg hle]
      exact hinv q
    · intro q
      have h1 := hinv q
      simp only [addQty, setQty]
      split
      · next hq => subst hq; omega
      · omega
    · intro q
      have h1 := hinv q
      have h2 := hinv p
      simp only [addQty, setQty]
      split
      · omega
      · exact h1

/-- C3 witnessed at concrete inputs: in inventory invStock a decrement of
two units of product A succeeds since five are in stock, and the
resulting inventory is nonnegative everywhere. -/
theorem inventory_nonneg_preserved_witness :
    ((decrement_stock invStock "A" 2).success = true ↔ 2 ≤ invStock "A") ∧
    (∀ q, 0 ≤ (decrement_stock invStock "A" 2).inv q) :=
  ⟨(inventory_nonneg_preserved invStock "A" 2 invStock_nonneg (by decide)).1,
   (inventory_nonneg_preserved invStock "A" 2 invStock_nonneg (by decide)).2.2.1⟩

/-- C4: the claim says a failed Reserve adds back the quantities it
already took, leaving every quantity unchanged.  Concrete refutation from
the code: with one unit of A in stock and no B, reserving one A and five
B decrements A to zero, then fails the stock condition on B and returns
INSUFFICIENT_STOCK without adding the unit of A back — the final quantity
of A is 0 although it was 1 before the failed call. -/
theorem reserve_partial_failure_leaves_decrements :
    (reserveLoop invAB [⟨"A", 1, 100⟩, ⟨"B", 5, 100⟩]).success = false ∧
    (reserveLoop invAB [⟨"A", 1, 100⟩, ⟨"B", 5, 100⟩]).inv "A" = 0 ∧
    invAB "A" = 1 := by
  decide

/-- C6: the claim says Release on a reservation already in status
RELEASED returns success without changing any inventory quantity.
Concrete refutation from the code: _do_release never reads the stored
status, so with the idempotency record for the key absent, releasing a
RELEASED reservation of two units of A returns success but raises the
stock of A from five to seven. -/
theorem release_on_released_reservation_adds_stock :
    (release releasedState 0).1 = ReleaseOutcome.value ⟨true, none⟩ ∧
    (release releasedState 0).2.inv "A" = 7 ∧
    releasedState.inv "A" = 5 ∧
    (releasedState.reservation.map Reservation.status) = some "RELEASED" := by
  decide

/-! ### Theorems about the order repository and the saga -/

/-- C9: the claim says every order status write is conditioned on the
stored version matching the version the writer observed.  Concrete
refutation from the code: update_status takes no observed version and
always succeeds — after writer A moves the order from version 5 to
CONFIRMED version 6, writer B, which also read version 5, overwrites it
to FAILED version 7 with no version-conflict error; the conditioned
helper put_item_with_optimistic_lock, which update_status does not use,
would have rejected that same stale write. -/
theorem update_status_unconditional_lost_update :
    update_status (some ⟨OrderStatus.PENDING, 5⟩) OrderStatus.CONFIRMED =
      some ⟨OrderStatus.CONFIRMED, 6⟩ ∧
    update_status (update_status (some ⟨OrderStatus.PENDING, 5⟩) OrderStatus.CONFIRMED)
      OrderStatus.FAILED = some ⟨OrderStatus.FAILED, 7⟩ ∧
    put_item_with_optimistic_lock
      (update_status (some ⟨OrderStatus.PENDING, 5⟩) OrderStatus.CONFIRMED)
      ⟨OrderStatus.FAILED, 5⟩ = PutResult.optimisticLockError := by
  decide

/-- C5: the claim says a completed saga leaves the order's persisted
status in the set of CONFIRMED and FAILED.  From the code: every
completed execution ends at a terminal state, yet no visited state writes
the orders table, so the order's persisted status still equals the
PENDING it was created with — which is neither CONFIRMED nor FAILED. -/
theorem saga_completion_leaves_order_pending (reserveOk paymentOk : Bool) :
    ((sagaPath reserveOk paymentOk).getLast? = some SagaState.OrderConfirmed ∨
     (sagaPath reserveOk paymentOk).getLast? = some SagaState.OrderFailed) ∧
    (∀ s ∈ sagaPath reserveOk paymentOk, TableId.orders ∉ tablesWritten s) ∧
    finalOrderStatus OrderStatus.PENDING (sagaPath reserveOk paymentOk) =
      OrderStatus.PENDING ∧
    OrderStatus.PENDING ≠ OrderStatus.CONFIRMED ∧
    OrderStatus.PENDING ≠ OrderStatus.FAILED := by
  cases reserveOk <;> cases paymentOk <;> decide

end CloudFlow
